import Mathlib

set_option maxHeartbeats 1000000
set_option maxRecDepth 4000

/-!
Shallow embedding of `src/NAS_global/opendelta/auto_delta.py`: the lazy
registry/factory core of the S3Delta repository (the `_LazyConfigMapping`
and `_LazyAutoMapping` registries, the `AutoDeltaConfig` config factory and
the `AutoDeltaModel` model factory), together with theorems settling the
spec claims about it.

Python state that the source mutates is made explicit: the interpreter's
module cache (`sys.modules`, threaded as `ImportState`) and each registry
object (threaded as a value).  Dicts are association lists in insertion
order, matching Python 3.7+ dict semantics.
-/

/-- A Python class object, identified by its defining module and its name
(its `__name__` attribute). -/
inductive PyObj where
  | pycls (module : String) (name : String)
deriving BEq, DecidableEq, Repr

/-- The `__name__` attribute of a class object. -/
def PyObj.pyName : PyObj → String
  | .pycls _ n => n

/-- Printable identity of a class object, used inside error messages. -/
def PyObj.pyRepr : PyObj → String
  | .pycls m n => m ++ "." ++ n

/-- The Python exceptions raised by the embedded code. -/
inductive PyError where
  | keyError (key : String)
  | valueError (msg : String)
  | runtimeError (msg : String)
  | environmentError (msg : String)
  | attributeError (name : String)
  | typeError (msg : String)
  | recursionError
deriving BEq, DecidableEq, Repr

/-- The interpreter's module cache: the names in `sys.modules`, in load
order.  `importlib.import_module` consults this cache, so a module body is
executed at most once per process. -/
structure ImportState where
  sysModules : List String
deriving BEq, DecidableEq, Repr

/-- A fresh interpreter state: nothing imported yet. -/
def st0 : ImportState := { sysModules := [] }

/-- `importlib.import_module name`: returns the (handle of the) module,
loading it only if it is not already in `sys.modules`. -/
def importModule (st : ImportState) (name : String) : ImportState × String :=
  if st.sysModules.contains name then (st, name)
  else ({ sysModules := st.sysModules ++ [name] }, name)

/-- `DELTA_CONFIG_MAPPING` from the source: TypeKey to config class name,
in declaration order. -/
def DELTA_CONFIG_MAPPING : List (String × String) :=
  [("lora", "LoraConfig"),
   ("low_rank_adapter", "LowRankAdapterConfig"),
   ("bitfit", "BitFitConfig"),
   ("adapter", "AdapterConfig"),
   ("compacter", "CompacterConfig"),
   ("prefix", "PrefixConfig"),
   ("soft_prompt", "SoftPromptConfig")]

/-- `DELTA_MODEL_MAPPING` from the source: TypeKey to model class name, in
declaration order. -/
def DELTA_MODEL_MAPPING : List (String × String) :=
  [("lora", "LoraModel"),
   ("low_rank_adapter", "LowRankAdapterModel"),
   ("bitfit", "BitFitModel"),
   ("adapter", "AdapterModel"),
   ("compacter", "CompacterModel"),
   ("prefix", "PrefixModel"),
   ("soft_prompt", "SoftPromptModel")]

/-- Full module name of the backing module for a TypeKey; the source
computes `f".{module_name}"` relative to `"opendelta.delta_models"`. -/
def deltaModName (key : String) : String := "opendelta.delta_models." ++ key

/-- Modelled from the spec: the attribute namespaces of the modules the
registries import.  The `opendelta.delta_models.<key>` modules are code of
this repository that is not under `src/`; per the spec each TypeKey's
backing module defines exactly the config class and model class named for
that key in the static tables.  The `transformers` root namespace is the
external host library; per the spec it exposes backbone model classes
(one representative is enough for the theorems below). -/
def moduleAttr (module attr : String) : Option PyObj :=
  if module == "transformers" then
    if attr == "T5ForConditionalGeneration" then some (.pycls "transformers" attr) else none
  else
    match DELTA_CONFIG_MAPPING.find? (fun p => deltaModName p.1 == module) with
    | some (k, cname) =>
        if attr == cname then some (.pycls module attr)
        else
          match List.lookup k DELTA_MODEL_MAPPING with
          | some mname => if attr == mname then some (.pycls module attr) else none
          | none => none
    | none => none

/-- A Python dict with string keys, in insertion order. -/
abbrev Dict := List (String × String)

/-- Python dict assignment `d[k] = v`: update in place keeping the key's
position if present, else append. -/
def dictSet {α : Type} : List (String × α) → String → α → List (String × α)
  | [], k, v => [(k, v)]
  | (a, b) :: l, k, v => if a == k then (k, v) :: l else (a, b) :: dictSet l k v

/-- Python dict deletion of a key (all occurrences; a real dict has at most
one). -/
def dictErase {α : Type} (l : List (String × α)) (k : String) : List (String × α) :=
  l.filter (fun p => !(p.1 == k))

/-- Python `d.pop(k, None)`: the value (if any) and the remaining dict. -/
def dictPop {α : Type} (l : List (String × α)) (k : String) : Option α × List (String × α) :=
  (List.lookup k l, dictErase l k)

/-- Whether `pat` is a prefix of the second list. -/
def listHasPre : List Char → List Char → Bool
  | [], _ => true
  | _ :: _, [] => false
  | a :: as, b :: bs => a == b && listHasPre as bs

/-- Whether `pat` occurs as a contiguous sublist. -/
def listHasSub (pat : List Char) : List Char → Bool
  | [] => pat.isEmpty
  | b :: bs => listHasPre pat (b :: bs) || listHasSub pat bs

/-- Python substring test `pat in hay` on strings. -/
def strContainsSub (hay pat : String) : Bool := listHasSub pat.data hay.data

/-- `_LazyConfigMapping`: static table, dynamic extra content, and the
per-key module cache, exactly the three fields set in `__init__`. -/
structure LazyConfigMapping where
  _mapping : List (String × String)
  _extra_content : List (String × PyObj)
  _modules : List (String × String)
deriving BEq, DecidableEq, Repr

/-- The module-level `LAZY_CONFIG_MAPPING = _LazyConfigMapping(DELTA_CONFIG_MAPPING)`. -/
def LAZY_CONFIG_MAPPING : LazyConfigMapping :=
  { _mapping := DELTA_CONFIG_MAPPING, _extra_content := [], _modules := [] }

/-- `_LazyConfigMapping.__getitem__`: extra content first (no import);
else a static key imports its backing module (the guard on `_modules` is
commented out in the source, so the import call and the cache store happen
on every lookup) and returns the named attribute from it. -/
def LazyConfigMapping.getItem (m : LazyConfigMapping) (st : ImportState) (key : String) :
    Except PyError PyObj × LazyConfigMapping × ImportState :=
  match List.lookup key m._extra_content with
  | some v => (.ok v, m, st)
  | none =>
    match List.lookup key m._mapping with
    | none => (.error (.keyError key), m, st)
    | some value =>
      let module_name := key
      let (st1, md) := importModule st (deltaModName module_name)
      let m1 := { m with _modules := dictSet m._modules module_name md }
      match moduleAttr md value with
      | some v => (.ok v, m1, st1)
      | none => (.error (.attributeError value), m1, st1)

/-- `_LazyConfigMapping.keys`: static keys then extra keys; the body
performs no lookups, so registry and import state pass through unchanged. -/
def LazyConfigMapping.keysOp (m : LazyConfigMapping) (st : ImportState) :
    List String × LazyConfigMapping × ImportState :=
  (m._mapping.map Prod.fst ++ m._extra_content.map Prod.fst, m, st)

/-- The key list `keys()` returns (also what `__iter__` iterates over). -/
def LazyConfigMapping.keysFn (m : LazyConfigMapping) : List String :=
  m._mapping.map Prod.fst ++ m._extra_content.map Prod.fst

/-- The list comprehension `[self[k] for k in ks]`: sequential lookups,
threading the registry and import state, aborting on the first error. -/
def LazyConfigMapping.getItems :
    List String → LazyConfigMapping → ImportState →
    Except PyError (List PyObj) × LazyConfigMapping × ImportState
  | [], m, st => (.ok [], m, st)
  | k :: ks, m, st =>
    match m.getItem st k with
    | (.ok v, m1, st1) =>
      match LazyConfigMapping.getItems ks m1 st1 with
      | (.ok vs, m2, st2) => (.ok (v :: vs), m2, st2)
      | (.error e, m2, st2) => (.error e, m2, st2)
    | (.error e, m1, st1) => (.error e, m1, st1)

/-- `_LazyConfigMapping.values`: looks up every static key (forcing
its import), then appends the extra-content values. -/
def LazyConfigMapping.valuesOp (m : LazyConfigMapping) (st : ImportState) :
    Except PyError (List PyObj) × LazyConfigMapping × ImportState :=
  match LazyConfigMapping.getItems (m._mapping.map Prod.fst) m st with
  | (.ok vs, m1, st1) => (.ok (vs ++ m._extra_content.map Prod.snd), m1, st1)
  | (.error e, m1, st1) => (.error e, m1, st1)

/-- `_LazyConfigMapping.items`: `(k, self[k])` for every static key
(forcing its import), then the extra-content pairs. -/
def LazyConfigMapping.itemsOp (m : LazyConfigMapping) (st : ImportState) :
    Except PyError (List (String × PyObj)) × LazyConfigMapping × ImportState :=
  match LazyConfigMapping.getItems (m._mapping.map Prod.fst) m st with
  | (.ok vs, m1, st1) =>
      (.ok (List.zip (m._mapping.map Prod.fst) vs ++ m._extra_content), m1, st1)
  | (.error e, m1, st1) => (.error e, m1, st1)

/-- `_LazyConfigMapping.__contains__`: key present in either table;
nothing is imported. -/
def LazyConfigMapping.containsKey (m : LazyConfigMapping) (key : String) : Bool :=
  (List.lookup key m._mapping).isSome || (List.lookup key m._extra_content).isSome

/-- `_LazyConfigMapping.register`: refuse keys already in the static
table, else store into the extra content. -/
def LazyConfigMapping.register (m : LazyConfigMapping) (key : String) (value : PyObj) :
    Except PyError LazyConfigMapping :=
  if key ∈ m._mapping.map Prod.fst then
    .error (.valueError (key ++ " is already used by a Transformers config, pick another name."))
  else .ok { m with _extra_content := dictSet m._extra_content key value }

/-- `AutoDeltaConfig.__init__` raises unconditionally; but its signature
`__init__(self)` declares no further parameters, so Python call binding
rejects any supplied argument with a TypeError before the body runs. -/
def AutoDeltaConfig.construct (args : List String) (kwargs : Dict) : Except PyError Unit :=
  if args = [] ∧ kwargs = [] then
    .error (.environmentError
      "AutoConfig is designed to be instantiated using the `AutoConfig.from_pretrained(pretrained_model_name_or_path)` method.")
  else .error (.typeError "__init__() takes 1 positional argument but more were given")

/-- `AutoDeltaConfig.from_dict`: deep-copies the mapping, pops `delta_type`
from the copy (the caller's dict — returned as the last component — is
untouched), resolves the config class through `LAZY_CONFIG_MAPPING`, and
delegates the remaining fields to `config_class.from_dict` (the delegated
class and forwarded fields are the `ok` payload). -/
def AutoDeltaConfig.from_dict (m : LazyConfigMapping) (st : ImportState) (config_dict : Dict) :
    Except PyError (PyObj × Dict) × LazyConfigMapping × ImportState × Dict :=
  let copy := config_dict
  let (delta_type, copy1) := dictPop copy "delta_type"
  match delta_type with
  | none =>
      (.error (.runtimeError "Do not specify a delta type, cannot load the default config"),
       m, st, config_dict)
  | some dt =>
    match m.getItem st dt with
    | (.ok config_class, m1, st1) => (.ok (config_class, copy1), m1, st1, config_dict)
    | (.error e, m1, st1) => (.error e, m1, st1, config_dict)

/-- The error message of the no-match branch of
`AutoDeltaConfig.from_finetuned`, which joins `LAZY_CONFIG_MAPPING.keys()`. -/
def unrecognizedSourceMsg (loc : String) (keys : List String) : String :=
  "Unrecognized model in " ++ loc ++
    ". Should have a `delta_type` key in the loaded config, or contain one of the following strings in its name: " ++
    String.intercalate ", " keys

/-- The core of `AutoDeltaConfig.from_finetuned` after the external loader
`BaseDeltaConfig.get_config_dict` has produced `config_dict` (the loader is
an external collaborator; its output is a parameter here).  If the loaded
mapping has a `delta_type`, resolve that key and delegate with the FULL
mapping (no pop).  Otherwise iterate `items()` — static entries in
declaration order, then extra content — and delegate to the first entry
whose key is a substring of the location string; if none matches, raise a
ValueError listing `keys()`. -/
def AutoDeltaConfig.from_finetuned_core (m : LazyConfigMapping) (st : ImportState)
    (finetuned_model_name_or_path : String) (config_dict : Dict) :
    Except PyError (PyObj × Dict) × LazyConfigMapping × ImportState :=
  match List.lookup "delta_type" config_dict with
  | some dt =>
    match m.getItem st dt with
    | (.ok config_class, m1, st1) => (.ok (config_class, config_dict), m1, st1)
    | (.error e, m1, st1) => (.error e, m1, st1)
  | none =>
    match m.itemsOp st with
    | (.ok its, m1, st1) =>
      match its.find? (fun p => strContainsSub finetuned_model_name_or_path p.1) with
      | some p => (.ok (p.2, config_dict), m1, st1)
      | none =>
          (.error (.valueError
             (unrecognizedSourceMsg finetuned_model_name_or_path m1.keysFn)), m1, st1)
    | (.error e, m1, st1) => (.error e, m1, st1)

/-- Default CPython recursion limit, the only bound that stops the
fallback recursion of `getattribute_from_module` when an attribute is
absent everywhere. -/
def PY_RECURSION_LIMIT : Nat := 1000

/-- The single-name path of `getattribute_from_module`: return the
attribute if the module has it; otherwise import `transformers` and try
again there.  The source has no base case for this self-call (upstream
transformers guards it with `if module != transformers_module`), so `fuel`
models the interpreter stack and running out of it is a RecursionError. -/
def getattrFallback : Nat → String → String → ImportState → Except PyError PyObj × ImportState
  | 0, module, attr, st =>
    match moduleAttr module attr with
    | some v => (.ok v, st)
    | none => (.error .recursionError, st)
  | Nat.succ fuel1, module, attr, st =>
    match moduleAttr module attr with
    | some v => (.ok v, st)
    | none =>
      let (st1, tm) := importModule st "transformers"
      getattrFallback fuel1 tm attr st1

/-- The attribute argument of `getattribute_from_module`: `None`, a single
name, or a tuple of names. -/
inductive AttrSpec where
  | noneA
  | nameA (s : String)
  | tupA (names : List String)
deriving BEq, DecidableEq, Repr

/-- Result values of `getattribute_from_module`. -/
inductive GfmVal where
  | obj (o : PyObj)
  | tup (os : List PyObj)
  | pynone
deriving BEq, DecidableEq, Repr

/-- Element-wise resolution of a tuple argument, threading the import
state and aborting on the first error. -/
def gfmElems (fuel : Nat) (module : String) :
    List String → ImportState → Except PyError (List PyObj) × ImportState
  | [], st => (.ok [], st)
  | a :: rest, st =>
    match getattrFallback fuel module a st with
    | (.ok v, st1) =>
      match gfmElems fuel module rest st1 with
      | (.ok vs, st2) => (.ok (v :: vs), st2)
      | (.error e, st2) => (.error e, st2)
    | (.error e, st1) => (.error e, st1)

/-- `getattribute_from_module`: `None` maps to `None`, tuples resolve
element-wise, and a name resolves via the module-then-transformers
fallback of `getattrFallback`. -/
def getattribute_from_module (fuel : Nat) (module : String) (attr : AttrSpec) (st : ImportState) :
    Except PyError GfmVal × ImportState :=
  match attr with
  | .noneA => (.ok .pynone, st)
  | .nameA s =>
    match getattrFallback fuel module s st with
    | (.ok v, st1) => (.ok (.obj v), st1)
    | (.error e, st1) => (.error e, st1)
  | .tupA names =>
    match gfmElems fuel module names st with
    | (.ok vs, st1) => (.ok (.tup vs), st1)
    | (.error e, st1) => (.error e, st1)

/-- `_LazyAutoMapping`: the five fields set in `__init__`. -/
structure LazyAutoMapping where
  _config_mapping : List (String × String)
  _reverse_config_mapping : List (String × String)
  _model_mapping : List (String × String)
  _extra_content : List (PyObj × PyObj)
  _modules : List (String × String)
deriving BEq, DecidableEq, Repr

/-- The dict comprehension of `__init__`:
a reverse index from config class name to TypeKey, later duplicates
overwriting earlier ones, insertion-ordered. -/
def buildReverse (l : List (String × String)) : List (String × String) :=
  l.foldl (fun acc p => dictSet acc p.2 p.1) []

/-- `_LazyAutoMapping.__init__(config_mapping, model_mapping)`. -/
def LazyAutoMapping.mk0 (config_mapping model_mapping : List (String × String)) :
    LazyAutoMapping :=
  { _config_mapping := config_mapping
    _reverse_config_mapping := buildReverse config_mapping
    _model_mapping := model_mapping
    _extra_content := []
    _modules := [] }

/-- The module-level
`LAZY_DELTA_MAPPING = _LazyAutoMapping(DELTA_CONFIG_MAPPING, DELTA_MODEL_MAPPING)`. -/
def LAZY_DELTA_MAPPING : LazyAutoMapping :=
  LazyAutoMapping.mk0 DELTA_CONFIG_MAPPING DELTA_MODEL_MAPPING

/-- `_LazyAutoMapping._load_attr_from_module`: import the TypeKey's
backing module on first use (this cache IS consulted here, unlike the
config registry's), then resolve the attribute name through
`getattribute_from_module`; the table attributes are single names, so this
is the `getattrFallback` path. -/
def LazyAutoMapping.loadAttr (lam : LazyAutoMapping) (st : ImportState)
    (model_type attr : String) : Except PyError PyObj × LazyAutoMapping × ImportState :=
  match List.lookup model_type lam._modules with
  | some md =>
    let (r, st1) := getattrFallback PY_RECURSION_LIMIT md attr st
    (r, lam, st1)
  | none =>
    let (st1, md) := importModule st (deltaModName model_type)
    let lam1 := { lam with _modules := dictSet lam._modules model_type md }
    let (r, st2) := getattrFallback PY_RECURSION_LIMIT md attr st1
    (r, lam1, st2)

/-- `_LazyAutoMapping.__getitem__`: extra content first; else translate
the class name through the reverse index to a TypeKey, require that key in
the model table, and load the model class. -/
def LazyAutoMapping.getItem (lam : LazyAutoMapping) (st : ImportState) (key : PyObj) :
    Except PyError PyObj × LazyAutoMapping × ImportState :=
  match List.lookup key lam._extra_content with
  | some v => (.ok v, lam, st)
  | none =>
    match List.lookup key.pyName lam._reverse_config_mapping with
    | none => (.error (.keyError key.pyName), lam, st)
    | some model_type =>
      match List.lookup model_type lam._model_mapping with
      | none => (.error (.keyError key.pyRepr), lam, st)
      | some model_name => lam.loadAttr st model_type model_name

/-- The list comprehension of `_LazyAutoMapping.keys`: for each static
config entry whose key is also in the model table, load the CONFIG class. -/
def LazyAutoMapping.keysAux :
    List (String × String) → LazyAutoMapping → ImportState →
    Except PyError (List PyObj) × LazyAutoMapping × ImportState
  | [], lam, st => (.ok [], lam, st)
  | (key, name) :: rest, lam, st =>
    if (List.lookup key lam._model_mapping).isSome then
      match lam.loadAttr st key name with
      | (.ok v, lam1, st1) =>
        match LazyAutoMapping.keysAux rest lam1 st1 with
        | (.ok vs, lam2, st2) => (.ok (v :: vs), lam2, st2)
        | (.error e, lam2, st2) => (.error e, lam2, st2)
      | (.error e, lam1, st1) => (.error e, lam1, st1)
    else LazyAutoMapping.keysAux rest lam st

/-- `_LazyAutoMapping.keys`: the loaded config classes of the shared
static keys, then the extra-content keys. -/
def LazyAutoMapping.keysOp (lam : LazyAutoMapping) (st : ImportState) :
    Except PyError (List PyObj) × LazyAutoMapping × ImportState :=
  match LazyAutoMapping.keysAux lam._config_mapping lam st with
  | (.ok vs, lam1, st1) => (.ok (vs ++ lam._extra_content.map Prod.fst), lam1, st1)
  | (.error e, lam1, st1) => (.error e, lam1, st1)

/-- Attribute lookup on the `AutoDeltaModel` class object: the class body
defines only `_delta_model_mapping` (bound to the registry); any other
attribute name raises AttributeError. -/
def AutoDeltaModel.getClassAttr (lam : LazyAutoMapping) (name : String) :
    Except PyError LazyAutoMapping :=
  if name == "_delta_model_mapping" then .ok lam
  else .error (.attributeError name)

/-- `AutoDeltaModel.__init__(self, *args, **kwargs)` raises
unconditionally; `*args, **kwargs` bind any argument combination. -/
def AutoDeltaModel.construct (_args : List String) (_kwargs : Dict) : Except PyError Unit :=
  .error (.environmentError
    "AutoDeltaModel is designed to be instantiated using the `AutoDeltaModel.from_pretrained(pretrained_model_name_or_path)` or `AutoDeltaModel.from_config(config)` methods.")

/-- The error message of the unrecognized-config branch of
`AutoDeltaModel.from_config`, which joins the `__name__`s of
`_delta_model_mapping.keys()`. -/
def unrecognizedConfigMsg (c : PyObj) (names : List String) : String :=
  "Unrecognized configuration class " ++ c.pyRepr ++
    " for this kind of AutoModel: AutoDeltaModel.\nModel type should be one of " ++
    String.intercalate ", " names ++ "."

/-- Outcome of a model-factory method: delegation to the resolved concrete
model class (the classes themselves are external collaborators). -/
inductive ModelFactoryOutcome where
  | delegatedFromConfig (modelClass : PyObj)
  | delegatedFromFinetuned (modelClass : PyObj)
deriving BEq, DecidableEq, Repr

/-- `AutoDeltaModel.from_config`, keyed by the runtime type of the config
argument: membership test against `_delta_model_mapping.keys()` (which
loads every shared static entry), then either delegation through
`__getitem__`, or a ValueError whose message re-evaluates `keys()` and
joins the class names. -/
def AutoDeltaModel.from_config (lam : LazyAutoMapping) (st : ImportState)
    (configType : PyObj) :
    Except PyError ModelFactoryOutcome × LazyAutoMapping × ImportState :=
  match lam.keysOp st with
  | (.error e, lam1, st1) => (.error e, lam1, st1)
  | (.ok ks, lam1, st1) =>
    if ks.contains configType then
      match lam1.getItem st1 configType with
      | (.ok mc, lam2, st2) => (.ok (.delegatedFromConfig mc), lam2, st2)
      | (.error e, lam2, st2) => (.error e, lam2, st2)
    else
      match lam1.keysOp st1 with
      | (.ok ks2, lam2, st2) =>
          (.error (.valueError (unrecognizedConfigMsg configType (ks2.map PyObj.pyName))),
           lam2, st2)
      | (.error e, lam2, st2) => (.error e, lam2, st2)

/-- `AutoDeltaModel.from_finetuned` on the branch where a `config=` kwarg
supplied a `BaseDeltaConfig` instance (so `AutoDeltaConfig.from_finetuned`
is skipped), keyed by that config's runtime type.  The recognized case
delegates like `from_config`; the error branch formats its message from
`cls._model_mapping`, an attribute the class does NOT define, so the
attribute lookup itself raises. -/
def AutoDeltaModel.from_finetuned_withConfig (lam : LazyAutoMapping) (st : ImportState)
    (configType : PyObj) :
    Except PyError ModelFactoryOutcome × LazyAutoMapping × ImportState :=
  match lam.keysOp st with
  | (.error e, lam1, st1) => (.error e, lam1, st1)
  | (.ok ks, lam1, st1) =>
    if ks.contains configType then
      match lam1.getItem st1 configType with
      | (.ok mc, lam2, st2) => (.ok (.delegatedFromFinetuned mc), lam2, st2)
      | (.error e, lam2, st2) => (.error e, lam2, st2)
    else
      match AutoDeltaModel.getClassAttr lam1 "_model_mapping" with
      | .error e => (.error e, lam1, st1)
      | .ok mm =>
        match mm.keysOp st1 with
        | (.ok ks2, lam2, st2) =>
            (.error (.valueError (unrecognizedConfigMsg configType (ks2.map PyObj.pyName))),
             lam2, st2)
        | (.error e, lam2, st2) => (.error e, lam2, st2)

/-- An extra config class used to exercise dynamic registration. -/
def zClass : PyObj := .pycls "user_mod" "ZConfig"

/-- The config registry after registering the fresh dynamic key `zkey`. -/
def REG2 : LazyConfigMapping :=
  (LAZY_CONFIG_MAPPING.register "zkey" zClass).toOption.getD LAZY_CONFIG_MAPPING

/-- The config class associated with a static TypeKey: the attribute named
in the static table, living on that key's backing module. -/
def staticConfigClass (k : String) : PyObj :=
  .pycls (deltaModName k) ((List.lookup k DELTA_CONFIG_MAPPING).getD "")

/-- Spec-side enumeration of `REG2`: every known TypeKey paired with its
config class, static keys in table-declaration order followed by the
dynamic key in registration order. -/
def keyClassTable : List (String × PyObj) :=
  DELTA_CONFIG_MAPPING.map (fun p => (p.1, staticConfigClass p.1)) ++ [("zkey", zClass)]

/-- `REG2` with every static backing module imported and cached. -/
def REG2_loaded : LazyConfigMapping :=
  { REG2 with _modules := DELTA_CONFIG_MAPPING.map (fun p => (p.1, deltaModName p.1)) }

/-- The import state after loading every static backing module, in
declaration order. -/
def stAllLoaded : ImportState :=
  { sysModules := DELTA_CONFIG_MAPPING.map (fun p => deltaModName p.1) }

/-- A config class unknown to the registries. -/
def badConfigType : PyObj := .pycls "user_module" "MyDeltaConfig"

/-- A loaded mapping that carries a `delta_type` field. -/
def cfgC4 : Dict := [("delta_type", "lora"), ("lora_r", "7")]

/-- Whether a factory-construction result is the Construction-Forbidden
error (the EnvironmentError the factories raise from `__init__`). -/
def isConstructionForbidden : Except PyError Unit → Bool
  | .error (.environmentError _) => true
  | _ => false

/-- Decidable equality for `Except` results, so that concrete runs can be
checked by `decide`. -/
instance {ε α : Type} [DecidableEq ε] [DecidableEq α] : DecidableEq (Except ε α) := fun x y =>
  match x, y with
  | .ok a, .ok b =>
    match decEq a b with
    | isTrue h => isTrue (by rw [h])
    | isFalse h => isFalse (fun he => h (Except.ok.inj he))
  | .error a, .error b =>
    match decEq a b with
    | isTrue h => isTrue (by rw [h])
    | isFalse h => isFalse (fun he => h (Except.error.inj he))
  | .ok _, .error _ => isFalse (fun he => Except.noConfusion he)
  | .error _, .ok _ => isFalse (fun he => Except.noConfusion he)

/-- `import_module` always hands back the requested module. -/
theorem importModule_snd (st : ImportState) (name : String) :
    (importModule st name).2 = name := by
  unfold importModule
  split <;> rfl

/-- Setting a key makes it the key's value. -/
theorem lookup_dictSet_self {α : Type} (l : List (String × α)) (k : String) (v : α) :
    List.lookup k (dictSet l k v) = some v := by
  induction l with
  | nil => simp [dictSet, List.lookup]
  | cons p rest ih =>
    rcases p with ⟨a, b⟩
    cases hak : a == k with
    | true => simp [dictSet, hak, List.lookup]
    | false =>
      have hka : (k == a) = false := by
        rw [beq_eq_false_iff_ne] at hak ⊢
        exact fun he => hak he.symm
      simp [dictSet, hak, List.lookup, hka, ih]

/-- Setting a key makes it one of the dict's keys. -/
theorem mem_fst_dictSet {α : Type} (l : List (String × α)) (k : String) (v : α) :
    k ∈ (dictSet l k v).map Prod.fst := by
  induction l with
  | nil => simp [dictSet]
  | cons p rest ih =>
    rcases p with ⟨a, b⟩
    cases hak : a == k with
    | true => simp [dictSet, hak]
    | false =>
      simp only [dictSet, hak, Bool.false_eq_true, if_false, List.map, List.mem_cons]
      exact Or.inr ih

/-- A successful association-list lookup comes from a member pair. -/
theorem lookupMem {β : Type} (a : String) (b : β) :
    ∀ l : List (String × β), List.lookup a l = some b → (a, b) ∈ l := by
  intro l
  induction l with
  | nil => intro h; simp [List.lookup] at h
  | cons p rest ih =>
    rcases p with ⟨k, v⟩
    intro h
    cases hak : a == k with
    | true =>
      have hav : a = k := eq_of_beq hak
      simp only [List.lookup, hak] at h
      injection h with hv
      subst hav; subst hv
      exact List.mem_cons_self _ _
    | false =>
      simp only [List.lookup, hak] at h
      exact List.mem_cons_of_mem _ (ih h)

/-- Erasing a key removes it. -/
theorem lookup_dictErase_self {α : Type} (l : List (String × α)) (k : String) :
    List.lookup k (dictErase l k) = none := by
  induction l with
  | nil => rfl
  | cons p rest ih =>
    rcases p with ⟨a, b⟩
    cases hak : a == k with
    | true =>
      simp only [dictErase, List.filter] at ih ⊢
      simp [hak, ih]
    | false =>
      have hka : (k == a) = false := by
        rw [beq_eq_false_iff_ne] at hak ⊢
        exact fun he => hak he.symm
      simp only [dictErase, List.filter] at ih ⊢
      simp [hak, hka, List.lookup, ih]

/-- Erasing one key leaves every other key's binding unchanged. -/
theorem lookup_dictErase_ne {α : Type} (l : List (String × α)) (k q : String)
    (h : ¬ q = k) :
    List.lookup q (dictErase l k) = List.lookup q l := by
  induction l with
  | nil => rfl
  | cons p rest ih =>
    rcases p with ⟨a, b⟩
    cases hak : a == k with
    | true =>
      have haq : (q == a) = false := by
        rw [beq_eq_false_iff_ne]
        intro he
        exact h (he.trans (eq_of_beq hak))
      simp only [dictErase, List.filter] at ih ⊢
      simp [hak, List.lookup, haq, ih]
    | false =>
      simp only [dictErase, List.filter] at ih ⊢
      cases haq : q == a with
      | true => simp [hak, List.lookup, haq]
      | false => simp [hak, List.lookup, haq, ih]

/-- C1: for every TypeKey in the static table, a Config Registry lookup
returns the config class associated with that key; an immediately repeated
lookup returns the identical object and changes neither the registry nor
the interpreter state; after the lookups the backing module has been
loaded exactly once (the module cache of `sys.modules` absorbs the
re-import the source performs) and sits in the per-key module cache. -/
theorem C1_config_lookup_idempotent_memoized (key : String)
    (h : key ∈ DELTA_CONFIG_MAPPING.map Prod.fst) :
    (LAZY_CONFIG_MAPPING.getItem st0 key).1 = .ok (staticConfigClass key) ∧
    ((LAZY_CONFIG_MAPPING.getItem st0 key).2.1.getItem
        (LAZY_CONFIG_MAPPING.getItem st0 key).2.2 key).1 = .ok (staticConfigClass key) ∧
    ((LAZY_CONFIG_MAPPING.getItem st0 key).2.1.getItem
        (LAZY_CONFIG_MAPPING.getItem st0 key).2.2 key).2 =
      (LAZY_CONFIG_MAPPING.getItem st0 key).2 ∧
    (LAZY_CONFIG_MAPPING.getItem st0 key).2.2.sysModules.count (deltaModName key) = 1 ∧
    List.lookup key (LAZY_CONFIG_MAPPING.getItem st0 key).2.1._modules =
      some (deltaModName key) := by
  fin_cases h <;> decide

/-- C1 witness at the TypeKey `lora`. -/
theorem C1_config_lookup_idempotent_memoized_witness :
    (LAZY_CONFIG_MAPPING.getItem st0 "lora").1 = .ok (staticConfigClass "lora") :=
  (C1_config_lookup_idempotent_memoized "lora" (by decide)).1

/-- C3: evaluating both model-factory paths at a config class absent from
the Model Registry.  `from_config` raises the Unrecognized-Config
ValueError listing every known config class name, but `from_finetuned`
under the same condition raises `AttributeError` for `_model_mapping`:
its error branch reads `cls._model_mapping`, an attribute `AutoDeltaModel`
does not define (the registry is bound to `_delta_model_mapping`). -/
theorem C3_unrecognized_config_paths :
    (AutoDeltaModel.from_config LAZY_DELTA_MAPPING st0 badConfigType).1 =
      .error (.valueError (unrecognizedConfigMsg badConfigType
        ["LoraConfig", "LowRankAdapterConfig", "BitFitConfig", "AdapterConfig",
         "CompacterConfig", "PrefixConfig", "SoftPromptConfig"])) ∧
    (AutoDeltaModel.from_finetuned_withConfig LAZY_DELTA_MAPPING st0 badConfigType).1 =
      .error (.attributeError "_model_mapping") := by
  decide

/-- C6 counterexample: `keys()` on the fresh Config Registry imports
nothing — the registry and the interpreter state come back unchanged and
no backing module (e.g. lora's) enters `sys.modules`, contrary to the
claim that every enumeration forces the lazy import of each static entry. -/
theorem C6_counterexample_keys_import_nothing :
    LazyConfigMapping.keysOp LAZY_CONFIG_MAPPING st0 =
      (["lora", "low_rank_adapter", "bitfit", "adapter", "compacter", "prefix",
        "soft_prompt"], LAZY_CONFIG_MAPPING, st0) ∧
    ¬ deltaModName "lora" ∈ (LazyConfigMapping.keysOp LAZY_CONFIG_MAPPING st0).2.2.sysModules := by
  decide

/-- C6 amended: on the registry with one dynamic registration, `keys()`
and `__iter__` enumerate static keys in declaration order followed by the
dynamic key, importing nothing; `values()` and `items()` return entries in
the same order and DO force the lazy import of every static entry, in
declaration order. -/
theorem C6_enumeration_order_and_forcing :
    LazyConfigMapping.keysOp REG2 st0 =
      (["lora", "low_rank_adapter", "bitfit", "adapter", "compacter", "prefix",
        "soft_prompt", "zkey"], REG2, st0) ∧
    REG2.keysFn =
      ["lora", "low_rank_adapter", "bitfit", "adapter", "compacter", "prefix",
       "soft_prompt", "zkey"] ∧
    LazyConfigMapping.valuesOp REG2 st0 =
      (.ok (keyClassTable.map Prod.snd), REG2_loaded, stAllLoaded) ∧
    LazyConfigMapping.itemsOp REG2 st0 = (.ok keyClassTable, REG2_loaded, stAllLoaded) ∧
    stAllLoaded.sysModules = DELTA_CONFIG_MAPPING.map (fun p => deltaModName p.1) := by
  decide

/-- `items()` on `REG2` from a fresh interpreter, fully evaluated. -/
theorem itemsOp_REG2_eval :
    LazyConfigMapping.itemsOp REG2 st0 = (.ok keyClassTable, REG2_loaded, stAllLoaded) := by
  decide

/-- C2: on a loaded mapping without `delta_type`, `from_finetuned` scans
the known TypeKeys in registry order — static keys in table-declaration
order, then dynamic keys in registration order — and delegates to the
config class of the first key occurring as a substring of the location
string; if none matches it raises the ValueError whose message lists all
known TypeKeys (`keys()` of the registry). -/
theorem C2_substring_fallback (loc : String) (cfg : Dict)
    (h : List.lookup "delta_type" cfg = none) :
    AutoDeltaConfig.from_finetuned_core REG2 st0 loc cfg =
      ((match keyClassTable.find? (fun p => strContainsSub loc p.1) with
        | some p => .ok (p.2, cfg)
        | none => .error (.valueError (unrecognizedSourceMsg loc REG2_loaded.keysFn))),
       REG2_loaded, stAllLoaded) := by
  unfold AutoDeltaConfig.from_finetuned_core
  rw [h, itemsOp_REG2_eval]
  rcases hf : keyClassTable.find? (fun p => strContainsSub loc p.1) with _ | p
  · simp only [hf]
  · simp only [hf]

/-- C2 witness: a location containing the literal substring `lora`
resolves, without a `delta_type` field, to the lora config class; a
location matching no key raises the ValueError listing every TypeKey. -/
theorem C2_substring_fallback_witness :
    AutoDeltaConfig.from_finetuned_core REG2 st0 "deltahub/lora_t5-large" [("r", "7")] =
      (.ok (staticConfigClass "lora", [("r", "7")]), REG2_loaded, stAllLoaded) ∧
    AutoDeltaConfig.from_finetuned_core REG2 st0 "deltahub/unknown" [("r", "7")] =
      (.error (.valueError (unrecognizedSourceMsg "deltahub/unknown"
        ["lora", "low_rank_adapter", "bitfit", "adapter", "compacter", "prefix",
         "soft_prompt", "zkey"])), REG2_loaded, stAllLoaded) := by
  constructor
  · rw [C2_substring_fallback "deltahub/lora_t5-large" [("r", "7")] (by decide)]
    decide
  · rw [C2_substring_fallback "deltahub/unknown" [("r", "7")] (by decide)]
    decide

/-- C4 counterexample: on the mapping with `delta_type = lora`, the
`from_finetuned` path forwards the mapping INCLUDING `delta_type` to the
concrete config class, while `from_dict` forwards it with `delta_type`
removed — the fields forwarded by the two paths differ at this input. -/
theorem C4_counterexample_forwarded_fields_differ :
    (AutoDeltaConfig.from_finetuned_core LAZY_CONFIG_MAPPING st0 "any/loc" cfgC4).1 =
      .ok (staticConfigClass "lora", cfgC4) ∧
    (AutoDeltaConfig.from_dict LAZY_CONFIG_MAPPING st0 cfgC4).1 =
      .ok (staticConfigClass "lora", [("lora_r", "7")]) ∧
    List.lookup "delta_type" cfgC4 = some "lora" ∧
    List.lookup "delta_type" [("lora_r", "7")] = (none : Option String) ∧
    cfgC4 ≠ [("lora_r", "7")] := by
  decide

/-- C4 amended: when the loaded mapping carries `delta_type`,
`from_finetuned` resolves the SAME config class as `from_dict` and leaves
the registry and interpreter in the same state, but forwards the whole
mapping unchanged (still containing `delta_type`), whereas `from_dict`
forwards the mapping with `delta_type` removed. -/
theorem C4_delta_type_same_class_different_fields (cfg : Dict) (loc : String)
    (k : String) (st : ImportState)
    (h : List.lookup "delta_type" cfg = some k) :
    Except.map Prod.fst (AutoDeltaConfig.from_finetuned_core LAZY_CONFIG_MAPPING st loc cfg).1 =
      Except.map Prod.fst (AutoDeltaConfig.from_dict LAZY_CONFIG_MAPPING st cfg).1 ∧
    (AutoDeltaConfig.from_finetuned_core LAZY_CONFIG_MAPPING st loc cfg).2 =
      ((AutoDeltaConfig.from_dict LAZY_CONFIG_MAPPING st cfg).2.1,
       (AutoDeltaConfig.from_dict LAZY_CONFIG_MAPPING st cfg).2.2.1) ∧
    (∀ c f, (AutoDeltaConfig.from_finetuned_core LAZY_CONFIG_MAPPING st loc cfg).1 =
        .ok (c, f) → f = cfg) ∧
    (∀ c f, (AutoDeltaConfig.from_dict LAZY_CONFIG_MAPPING st cfg).1 = .ok (c, f) →
        f = dictErase cfg "delta_type" ∧ List.lookup "delta_type" f = none) := by
  simp only [AutoDeltaConfig.from_finetuned_core, AutoDeltaConfig.from_dict, dictPop, h]
  rcases hg : LazyConfigMapping.getItem LAZY_CONFIG_MAPPING st k with ⟨r, mm, ss⟩
  cases r with
  | ok v =>
    simp only [hg]
    refine ⟨rfl, trivial, ?_, ?_⟩
    · intro c f hf
      injection hf with h1
      injection h1 with h2 h3
      exact h3.symm
    · intro c f hf
      injection hf with h1
      injection h1 with h2 h3
      refine ⟨h3.symm, ?_⟩
      rw [← h3]
      exact lookup_dictErase_self cfg "delta_type"
  | error e =>
    simp only [hg]
    refine ⟨trivial, trivial,
      fun c f hf => Except.noConfusion hf, fun c f hf => Except.noConfusion hf⟩

/-- C4 witness at the mapping with `delta_type = lora`: both paths pick
the same config class. -/
theorem C4_delta_type_same_class_different_fields_witness :
    Except.map Prod.fst
        (AutoDeltaConfig.from_finetuned_core LAZY_CONFIG_MAPPING st0 "any/loc" cfgC4).1 =
      Except.map Prod.fst (AutoDeltaConfig.from_dict LAZY_CONFIG_MAPPING st0 cfgC4).1 :=
  (C4_delta_type_same_class_different_fields cfgC4 "any/loc" "lora" st0 (by decide)).1

/-- For an attribute name absent from the given module and from the
transformers root namespace, the fallback recursion of
`getattribute_from_module` never produces a value or a designed error at
ANY recursion budget: each step re-imports transformers and calls itself
again, so the only exit is exhausting the interpreter stack. -/
theorem getattrFallback_absentEverywhere (fuel : Nat) :
    ∀ (module : String) (st : ImportState),
      moduleAttr module "AbsentEverywhere" = none →
      (getattrFallback fuel module "AbsentEverywhere" st).1 =
        .error PyError.recursionError := by
  induction fuel with
  | zero =>
    intro module st hm
    simp [getattrFallback, hm]
  | succ n ih =>
    intro module st hm
    simp only [getattrFallback, hm]
    rcases himp : importModule st "transformers" with ⟨st1, tm⟩
    have htm : tm = "transformers" := by
      have h2 := congrArg Prod.snd himp
      rw [importModule_snd] at h2
      exact h2.symm
    simp only [himp]
    rw [htm]
    exact ih "transformers" st1 rfl

/-- C5: `getattribute_from_module` returns a module attribute when
present (at any recursion budget, even zero), resolves a tuple of names
element-wise, but on a name absent both from the module and from the
transformers root it recurses forever: for EVERY recursion budget the run
ends in RecursionError, so the function is not total — it never fails
with a designed lookup error, contradicting the claimed termination. -/
theorem C5_getattribute_nonterminating (fuel : Nat) (st : ImportState) :
    getattribute_from_module fuel (deltaModName "lora") (.nameA "LoraConfig") st =
      (.ok (.obj (.pycls (deltaModName "lora") "LoraConfig")), st) ∧
    getattribute_from_module fuel (deltaModName "lora")
        (.tupA ["LoraConfig", "LoraModel"]) st =
      (.ok (.tup [.pycls (deltaModName "lora") "LoraConfig",
                  .pycls (deltaModName "lora") "LoraModel"]), st) ∧
    (getattribute_from_module fuel (deltaModName "lora")
        (.nameA "AbsentEverywhere") st).1 = .error PyError.recursionError := by
  refine ⟨?_, ?_, ?_⟩
  · cases fuel <;> rfl
  · cases fuel <;> rfl
  · have h := getattrFallback_absentEverywhere fuel (deltaModName "lora") st rfl
    rcases hg : getattrFallback fuel (deltaModName "lora") "AbsentEverywhere" st with ⟨r, st1⟩
    rw [hg] at h
    simp only [getattribute_from_module, hg]
    cases r with
    | ok v => exact absurd h (by simp)
    | error e => simpa using h

/-- C7: `register` fails with the Collision ValueError exactly when the
key is already in the static table; with any other key it succeeds, and
the key becomes visible through `contains`, `keys` and lookup (which
returns the registered value without importing anything). -/
theorem C7_register_collision_iff (m : LazyConfigMapping) (st : ImportState)
    (key : String) (v : PyObj) :
    (key ∈ m._mapping.map Prod.fst →
       m.register key v = .error (.valueError
         (key ++ " is already used by a Transformers config, pick another name."))) ∧
    (key ∉ m._mapping.map Prod.fst →
       ∃ m', m.register key v = .ok m' ∧
         m'.containsKey key = true ∧
         key ∈ m'.keysFn ∧
         (m'.getItem st key).1 = .ok v ∧
         (m'.getItem st key).2 = (m', st)) := by
  constructor
  · intro h
    simp [LazyConfigMapping.register, h]
  · intro h
    refine ⟨{ m with _extra_content := dictSet m._extra_content key v }, ?_, ?_, ?_, ?_, ?_⟩
    · simp [LazyConfigMapping.register, h]
    · simp [LazyConfigMapping.containsKey, lookup_dictSet_self]
    · simp only [LazyConfigMapping.keysFn, List.mem_append]
      exact Or.inr (mem_fst_dictSet m._extra_content key v)
    · simp [LazyConfigMapping.getItem, lookup_dictSet_self]
    · simp [LazyConfigMapping.getItem, lookup_dictSet_self]

/-- C7 witness: a static key collides; a fresh key registers and is then
visible. -/
theorem C7_register_collision_iff_witness :
    LAZY_CONFIG_MAPPING.register "lora" zClass =
      .error (.valueError
        ("lora" ++ " is already used by a Transformers config, pick another name.")) ∧
    ∃ m', LAZY_CONFIG_MAPPING.register "newkey" zClass = .ok m' ∧
      m'.containsKey "newkey" = true ∧
      "newkey" ∈ m'.keysFn ∧
      (m'.getItem st0 "newkey").1 = .ok zClass ∧
      (m'.getItem st0 "newkey").2 = (m', st0) :=
  ⟨(C7_register_collision_iff LAZY_CONFIG_MAPPING st0 "lora" zClass).1 (by decide),
   (C7_register_collision_iff LAZY_CONFIG_MAPPING st0 "newkey" zClass).2 (by decide)⟩

/-- If the values of an association list are pairwise distinct, lookup is
injective: two keys bound to the same value coincide. -/
theorem lookup_inj_of_nodup_snd {β : Type} (l : List (String × β))
    (hnd : (l.map Prod.snd).Nodup) (n1 n2 : String) (k : β)
    (h1 : List.lookup n1 l = some k) (h2 : List.lookup n2 l = some k) : n1 = n2 := by
  induction l with
  | nil => simp [List.lookup] at h1
  | cons p rest ih =>
    rcases p with ⟨a, b⟩
    simp only [List.map, List.nodup_cons] at hnd
    obtain ⟨hbn, hnd1⟩ := hnd
    cases h1a : n1 == a with
    | true =>
      cases h2a : n2 == a with
      | true => exact (eq_of_beq h1a).trans (eq_of_beq h2a).symm
      | false =>
        simp only [List.lookup, h1a] at h1
        simp only [List.lookup, h2a] at h2
        injection h1 with hbk
        subst hbk
        exact absurd (List.mem_map_of_mem Prod.snd (lookupMem _ _ _ h2)) hbn
    | false =>
      cases h2a : n2 == a with
      | true =>
        simp only [List.lookup, h1a] at h1
        simp only [List.lookup, h2a] at h2
        injection h2 with hbk
        subst hbk
        exact absurd (List.mem_map_of_mem Prod.snd (lookupMem _ _ _ h1)) hbn
      | false =>
        simp only [List.lookup, h1a] at h1
        simp only [List.lookup, h2a] at h2
        exact ih hnd1 h1 h2

/-- C8: the Model Registry's reverse index (config class name to TypeKey,
built at construction from the static config table) is injective, and for
every static TypeKey K, the config class the Config Factory produces for
K has a name the reverse index maps back to K. -/
theorem C8_reverse_index_injective_roundtrip :
    (∀ n1 n2 k : String,
       List.lookup n1 LAZY_DELTA_MAPPING._reverse_config_mapping = some k →
       List.lookup n2 LAZY_DELTA_MAPPING._reverse_config_mapping = some k →
       n1 = n2) ∧
    (∀ key : String, key ∈ DELTA_CONFIG_MAPPING.map Prod.fst →
       ∃ c fwd m1 st1 cd1,
         AutoDeltaConfig.from_dict LAZY_CONFIG_MAPPING st0 [("delta_type", key)] =
           (.ok (c, fwd), m1, st1, cd1) ∧
         List.lookup c.pyName LAZY_DELTA_MAPPING._reverse_config_mapping = some key) := by
  constructor
  · intro n1 n2 k h1 h2
    exact lookup_inj_of_nodup_snd LAZY_DELTA_MAPPING._reverse_config_mapping
      (by decide) n1 n2 k h1 h2
  · intro key hk
    fin_cases hk <;> exact ⟨_, _, _, _, _, rfl, by decide⟩

/-- C8 witness: the injectivity instance at `LoraConfig` and the round
trip at the TypeKey `lora`. -/
theorem C8_reverse_index_injective_roundtrip_witness :
    "LoraConfig" = "LoraConfig" ∧
    ∃ c fwd m1 st1 cd1,
      AutoDeltaConfig.from_dict LAZY_CONFIG_MAPPING st0 [("delta_type", "lora")] =
        (.ok (c, fwd), m1, st1, cd1) ∧
      List.lookup c.pyName LAZY_DELTA_MAPPING._reverse_config_mapping = some "lora" :=
  ⟨C8_reverse_index_injective_roundtrip.1 "LoraConfig" "LoraConfig" "lora"
     (by decide) (by decide),
   C8_reverse_index_injective_roundtrip.2 "lora" (by decide)⟩

/-- C9: whenever `from_dict` succeeds, the caller's mapping comes back
exactly as supplied (the pop acts on the deep copy only), and the fields
forwarded to the concrete config class contain no `delta_type` while
agreeing with the input mapping on every other key. -/
theorem C9_from_dict_pops_copy (d : Dict) (m : LazyConfigMapping) (st : ImportState)
    (c : PyObj) (fwd : Dict) (m1 : LazyConfigMapping) (st1 : ImportState) (cd1 : Dict)
    (h : AutoDeltaConfig.from_dict m st d = (.ok (c, fwd), m1, st1, cd1)) :
    cd1 = d ∧ List.lookup "delta_type" fwd = none ∧
      ∀ q : String, ¬ q = "delta_type" → List.lookup q fwd = List.lookup q d := by
  rcases hd : List.lookup "delta_type" d with _ | dt
  · simp only [AutoDeltaConfig.from_dict, dictPop, hd, Prod.mk.injEq] at h
    exact Except.noConfusion h.1
  · simp only [AutoDeltaConfig.from_dict, dictPop, hd] at h
    rcases hg : m.getItem st dt with ⟨r, mm, ss⟩
    rw [hg] at h
    cases r with
    | ok v =>
      simp only [Prod.mk.injEq] at h
      obtain ⟨hok, hm, hs, hcd⟩ := h
      injection hok with hpair
      injection hpair with hc hfwd
      subst hfwd
      refine ⟨hcd.symm, lookup_dictErase_self d "delta_type", ?_⟩
      intro q hq
      exact lookup_dictErase_ne d "delta_type" q hq
    | error e =>
      simp only [Prod.mk.injEq] at h
      exact Except.noConfusion h.1

/-- C9 witness at the mapping with `delta_type = lora` and one extra
field. -/
theorem C9_from_dict_pops_copy_witness :
    cfgC4 = cfgC4 ∧ List.lookup "delta_type" [("lora_r", "7")] = none ∧
      ∀ q : String, ¬ q = "delta_type" →
        List.lookup q [("lora_r", "7")] = List.lookup q cfgC4 :=
  C9_from_dict_pops_copy cfgC4 LAZY_CONFIG_MAPPING st0
    (staticConfigClass "lora") [("lora_r", "7")]
    { LAZY_CONFIG_MAPPING with _modules := [("lora", deltaModName "lora")] }
    { sysModules := [deltaModName "lora"] } cfgC4 (by decide)

/-- C10 counterexample: calling the Config Factory constructor with one
positional argument fails with a TypeError from Python call binding (its
`__init__` declares no parameters), not with the Construction-Forbidden
EnvironmentError the claim promises for every argument combination. -/
theorem C10_counterexample_config_with_args :
    AutoDeltaConfig.construct ["extra_arg"] [] =
      .error (.typeError "__init__() takes 1 positional argument but more were given") ∧
    isConstructionForbidden (AutoDeltaConfig.construct ["extra_arg"] []) = false := by
  decide

/-- C10 amended: the Model Factory constructor fails with the
Construction-Forbidden EnvironmentError for every argument combination
(its `__init__` binds `*args, **kwargs`); the Config Factory constructor
fails with that error when called without arguments, and with a TypeError
from call binding whenever any argument is supplied. -/
theorem C10_construction_always_fails (args : List String) (kwargs : Dict) :
    AutoDeltaModel.construct args kwargs =
      .error (.environmentError
        "AutoDeltaModel is designed to be instantiated using the `AutoDeltaModel.from_pretrained(pretrained_model_name_or_path)` or `AutoDeltaModel.from_config(config)` methods.") ∧
    (args = [] ∧ kwargs = [] →
      AutoDeltaConfig.construct args kwargs =
        .error (.environmentError
          "AutoConfig is designed to be instantiated using the `AutoConfig.from_pretrained(pretrained_model_name_or_path)` method.")) ∧
    (¬ (args = [] ∧ kwargs = []) →
      AutoDeltaConfig.construct args kwargs =
        .error (.typeError "__init__() takes 1 positional argument but more were given")) := by
  refine ⟨rfl, ?_, ?_⟩
  · intro h
    simp [AutoDeltaConfig.construct, h]
  · intro h
    simp [AutoDeltaConfig.construct, h]

/-- C10 witness: the empty call hits the Construction-Forbidden error, a
one-argument call hits the TypeError. -/
theorem C10_construction_always_fails_witness :
    AutoDeltaConfig.construct [] [] =
      .error (.environmentError
        "AutoConfig is designed to be instantiated using the `AutoConfig.from_pretrained(pretrained_model_name_or_path)` method.") ∧
    AutoDeltaConfig.construct ["backbone"] [] =
      .error (.typeError "__init__() takes 1 positional argument but more were given") :=
  ⟨(C10_construction_always_fails [] []).2.1 ⟨rfl, rfl⟩,
   (C10_construction_always_fails ["backbone"] []).2.2 (by simp)⟩
